import Mathlib

/-!
# ChessGenie backend — verification of the analysis pipeline

Shallow embedding of the game-analysis core of the ChessGenie backend
(`backend/analyzer.py` and the job-processing control flow of
`backend/main.py`), together with theorems settling the specification
claims about it.

Modelling conventions:
* Python machine integers are unbounded, so centipawn scores are `Int`.
* Python floats in the accuracy computation are modelled by exact
  rationals (`ℚ`); `round(x, 1)` is modelled as rounding `10·x` to the
  nearest integer and dividing by `10`.
* The external engine (`chess.engine`) is an oracle: each `analyse` call's
  reply is an input to the embedded functions (`Option PovScore` for the
  score field, an optional principal-variation head for the best move).
* Database and logging effects are modelled by explicit data: the prior
  contents of the `GameAnalysis` table become a lookup function, and log
  lines become returned strings.
-/

namespace ChessGenie

/-- An engine score from white's perspective, as exposed by
`info["score"].white()`: either a centipawn value or a mate distance
(`mate n` with `n > 0` when white mates, `n < 0` when black mates). -/
inductive PovScore where
  | cp (v : Int)
  | mate (n : Int)
deriving DecidableEq, Repr

/-- Embedding of `_get_score` (analyzer.py lines 280–297): extract a
centipawn scalar from an engine info reply.  `none` models an info
dictionary with no `"score"` entry at all. -/
def _get_score (score : Option PovScore) : Int :=
  match score with
  | none => 0
  | some (PovScore.mate mate_in) =>
      if mate_in > 0 then 10000 - mate_in * 10 else -10000 - mate_in * 10
  | some (PovScore.cp v) => v

/-- Embedding of `classify_move` (analyzer.py lines 85–98). -/
def classify_move (centipawn_loss : Int) : String :=
  if centipawn_loss ≤ 10 then "best"
  else if centipawn_loss ≤ 30 then "excellent"
  else if centipawn_loss ≤ 100 then "good"
  else if centipawn_loss ≤ 200 then "inaccuracy"
  else if centipawn_loss ≤ 500 then "mistake"
  else "blunder"

/-- Round a rational to one decimal place, modelling Python's
`round(x, 1)` (ties are immaterial to the claims checked here). -/
def round10 (x : ℚ) : ℚ :=
  ((round (x * 10) : ℤ) : ℚ) / 10

/-- Embedding of `calculate_accuracy` (analyzer.py lines 101–113):
`accuracy = 100 * (1 - avg_loss / 200)`, rounded to one decimal place and
then clamped to `[0, 100]`. -/
def calculate_accuracy (centipawn_losses : List Int) : ℚ :=
  if centipawn_losses.isEmpty then 100
  else
    let avg_loss : ℚ := (centipawn_losses.sum : ℚ) / (centipawn_losses.length : ℚ)
    let accuracy : ℚ := 100 * (1 - avg_loss / 200)
    max 0 (min 100 (round10 accuracy))

/-- The accuracy formula as worded by the spec: `clamp(100 × (1 −
mean/200), 0, 100)`, rounded to one decimal place (clamp inside, rounding
outside).  Compared against `calculate_accuracy` below. -/
def accuracy_spec (losses : List Int) : ℚ :=
  if losses.isEmpty then 100
  else round10 (max 0 (min 100 (100 * (1 - ((losses.sum : ℚ) / (losses.length : ℚ)) / 200))))

/-! ## Per-Game Analyzer loop (analyzer.py lines 156–270)

The engine is an oracle, so one ply of input data carries the
board-derived strings for the recorded move together with the engine's two
replies (`analyse` before the move and after it).  The board's
side-to-move alternates ply by ply starting from the initial position's
turn. -/

/-- Inputs consumed by one iteration of the analysis loop: the recorded
move's SAN/UCI, the pre-move position's FEN, the head of the engine's
principal variation (SAN, UCI) when present, and the score fields of the
pre-move (`best_info`) and post-move (`after_info`) engine replies. -/
structure PlyData where
  move_san : String
  move_uci : String
  position_fen : String
  best_pv : Option (String × String)
  best_info_score : Option PovScore
  after_info_score : Option PovScore
deriving DecidableEq, Repr

/-- Embedding of the `MoveAnalysis` dataclass (analyzer.py lines 31–44). -/
structure MoveAnalysis where
  move_number : Nat
  move_san : String
  move_uci : String
  is_white : Bool
  eval_before : Int
  eval_after : Int
  best_move_uci : String
  best_move_san : String
  centipawn_loss : Int
  classification : String
  position_fen : String
deriving DecidableEq, Repr

/-- Entry shape appended to the `mistakes` and `blunders` lists
(analyzer.py lines 218–233). -/
structure MistakeEntry where
  move_number : Nat
  player : String
  played : String
  best : String
  loss : Int
deriving DecidableEq, Repr

/-- Entry shape appended to the `best_moves` list (analyzer.py lines
234–239). -/
structure BestMoveEntry where
  move_number : Nat
  player : String
  move : String
deriving DecidableEq, Repr

/-- Entry shape appended to the `critical_moments` list (analyzer.py
lines 241–248). -/
structure CriticalMomentEntry where
  move_number : Nat
  player : String
  eval_change : Int
  position_fen : String
deriving DecidableEq, Repr

/-- `eval_before = _get_score(best_info, chess.WHITE)` (line 182; the
perspective argument is ignored by `_get_score`, which always reads the
white-point-of-view score). -/
def plyEvalBefore (p : PlyData) : Int := _get_score p.best_info_score

/-- `eval_after = _get_score(after_info, chess.WHITE)` (line 189). -/
def plyEvalAfter (p : PlyData) : Int := _get_score p.after_info_score

/-- Lines 192–197: the mover's centipawn loss.  `turn` is
`board.turn == chess.WHITE` at the pre-move position. -/
def plyLoss (turn : Bool) (p : PlyData) : Int :=
  if turn then max 0 (plyEvalBefore p - plyEvalAfter p)
  else max 0 (plyEvalAfter p - plyEvalBefore p)

/-- `best_move_san = board.san(best_move) if best_move else move_san`
(line 180). -/
def plyBestSan (p : PlyData) : String :=
  match p.best_pv with
  | some b => b.1
  | none => p.move_san

/-- `best_move_uci = best_move.uci() if best_move else move_uci`
(line 181). -/
def plyBestUci (p : PlyData) : String :=
  match p.best_pv with
  | some b => b.2
  | none => p.move_uci

/-- `"white" if is_white else "black"`. -/
def playerStr (turn : Bool) : String := if turn then "white" else "black"

/-- The `MoveAnalysis` record built at ply index `i` (0-based), lines
201–213; `move_number = (move_num // 2) + 1`. -/
def mkMoveAnalysis (i : Nat) (turn : Bool) (p : PlyData) : MoveAnalysis :=
  { move_number := i / 2 + 1
    move_san := p.move_san
    move_uci := p.move_uci
    is_white := turn
    eval_before := plyEvalBefore p
    eval_after := plyEvalAfter p
    best_move_uci := plyBestUci p
    best_move_san := plyBestSan p
    centipawn_loss := plyLoss turn p
    classification := classify_move (plyLoss turn p)
    position_fen := p.position_fen }

/-- The dict appended to `mistakes`/`blunders` (lines 219–233). -/
def mkMistakeEntry (i : Nat) (turn : Bool) (p : PlyData) : MistakeEntry :=
  { move_number := i / 2 + 1
    player := playerStr turn
    played := p.move_san
    best := plyBestSan p
    loss := plyLoss turn p }

/-- The dict appended to `best_moves` (lines 235–239). -/
def mkBestMoveEntry (i : Nat) (turn : Bool) (p : PlyData) : BestMoveEntry :=
  { move_number := i / 2 + 1
    player := playerStr turn
    move := p.move_san }

/-- The dict appended to `critical_moments` (lines 243–248). -/
def mkCriticalMomentEntry (i : Nat) (turn : Bool) (p : PlyData) : CriticalMomentEntry :=
  { move_number := i / 2 + 1
    player := playerStr turn
    eval_change := plyEvalAfter p - plyEvalBefore p
    position_fen := p.position_fen }

/-- The accumulator lists of the analysis loop (analyzer.py lines
159–165). -/
structure LoopState where
  move_analyses : List MoveAnalysis
  white_losses : List Int
  black_losses : List Int
  mistakes : List MistakeEntry
  blunders : List MistakeEntry
  best_moves : List BestMoveEntry
  critical_moments : List CriticalMomentEntry
deriving DecidableEq, Repr

/-- One iteration of the loop body (analyzer.py lines 171–250) at ply
index `move_num` with side-to-move `is_white`.  Python's conditional
`append`s are written as appending a conditional singleton. -/
def analyzeStep (move_num : Nat) (is_white : Bool) (p : PlyData) (s : LoopState) : LoopState :=
  let cp_loss := plyLoss is_white p
  let classification := classify_move cp_loss
  { move_analyses := s.move_analyses ++ [mkMoveAnalysis move_num is_white p]
    white_losses := s.white_losses ++ (if is_white then [cp_loss] else [])
    black_losses := s.black_losses ++ (if is_white then [] else [cp_loss])
    mistakes := s.mistakes ++
      (if classification = "mistake" then [mkMistakeEntry move_num is_white p] else [])
    blunders := s.blunders ++
      (if classification = "blunder" then [mkMistakeEntry move_num is_white p] else [])
    best_moves := s.best_moves ++
      (if classification = "best" then [mkBestMoveEntry move_num is_white p] else [])
    critical_moments := s.critical_moments ++
      (if 150 < |plyEvalAfter p - plyEvalBefore p|
       then [mkCriticalMomentEntry move_num is_white p] else []) }

/-- The `for move_num, move in enumerate(moves)` loop: the ply index
counts up and the side to move flips after each `board.push`. -/
def analyzeMovesAux : List PlyData → Nat → Bool → LoopState → LoopState
  | [], _, _, s => s
  | p :: rest, move_num, turn, s =>
      analyzeMovesAux rest (move_num + 1) (!turn) (analyzeStep move_num turn p s)

/-- All seven accumulators start empty (analyzer.py lines 159–165). -/
def initState : LoopState := ⟨[], [], [], [], [], [], []⟩

/-- The full analysis loop over a game's plies, starting from the initial
position's side to move `turn0` (white for a standard game). -/
def analyzeMoves (plies : List PlyData) (turn0 : Bool) : LoopState :=
  analyzeMovesAux plies 0 turn0 initState

/-- Embedding of the `GameAnalysisResult` dataclass (analyzer.py lines
47–63). -/
structure GameAnalysisResult where
  game_id : String
  white : String
  black : String
  result : String
  opening : Option String
  accuracy_white : ℚ
  accuracy_black : ℚ
  total_moves : Nat
  mistakes : List MistakeEntry
  blunders : List MistakeEntry
  best_moves : List BestMoveEntry
  critical_moments : List CriticalMomentEntry
  move_analyses : List MoveAnalysis
  status : String
deriving DecidableEq, Repr

/-- Assembly of the successful return value of `analyze_game_sync`
(analyzer.py lines 252–270): accuracies from the per-colour loss lists,
capped lists truncated by `[:10]`, status `"analyzed"`. -/
def assembleResult (game_id white black result : String) (opening : Option String)
    (plies : List PlyData) (turn0 : Bool) : GameAnalysisResult :=
  let s := analyzeMoves plies turn0
  { game_id := game_id
    white := white
    black := black
    result := result
    opening := opening
    accuracy_white := calculate_accuracy s.white_losses
    accuracy_black := calculate_accuracy s.black_losses
    total_moves := plies.length
    mistakes := s.mistakes.take 10
    blunders := s.blunders.take 10
    best_moves := s.best_moves.take 10
    critical_moments := s.critical_moments.take 10
    move_analyses := s.move_analyses
    status := "analyzed" }

/-! Direct recursions describing each accumulator of the loop in ply
order; `analyzeMovesAux_eq` below proves they coincide with the loop. -/

/-- The `move_analyses` list produced from ply index `i` onwards. -/
def movesFrom : List PlyData → Nat → Bool → List MoveAnalysis
  | [], _, _ => []
  | p :: rest, i, turn => mkMoveAnalysis i turn p :: movesFrom rest (i + 1) (!turn)

/-- The `white_losses` list produced from ply index `i` onwards. -/
def whiteLossesFrom : List PlyData → Nat → Bool → List Int
  | [], _, _ => []
  | p :: rest, i, turn =>
      (if turn then [plyLoss turn p] else []) ++ whiteLossesFrom rest (i + 1) (!turn)

/-- The `black_losses` list produced from ply index `i` onwards. -/
def blackLossesFrom : List PlyData → Nat → Bool → List Int
  | [], _, _ => []
  | p :: rest, i, turn =>
      (if turn then [] else [plyLoss turn p]) ++ blackLossesFrom rest (i + 1) (!turn)

/-- The moves classified `"mistake"`, in ply order. -/
def mistakesFrom : List PlyData → Nat → Bool → List MistakeEntry
  | [], _, _ => []
  | p :: rest, i, turn =>
      (if classify_move (plyLoss turn p) = "mistake" then [mkMistakeEntry i turn p] else [])
        ++ mistakesFrom rest (i + 1) (!turn)

/-- The moves classified `"blunder"`, in ply order. -/
def blundersFrom : List PlyData → Nat → Bool → List MistakeEntry
  | [], _, _ => []
  | p :: rest, i, turn =>
      (if classify_move (plyLoss turn p) = "blunder" then [mkMistakeEntry i turn p] else [])
        ++ blundersFrom rest (i + 1) (!turn)

/-- The moves classified `"best"`, in ply order. -/
def bestMovesFrom : List PlyData → Nat → Bool → List BestMoveEntry
  | [], _, _ => []
  | p :: rest, i, turn =>
      (if classify_move (plyLoss turn p) = "best" then [mkBestMoveEntry i turn p] else [])
        ++ bestMovesFrom rest (i + 1) (!turn)

/-- The plies with `|evalAfter − evalBefore| > 150`, in ply order. -/
def criticalFrom : List PlyData → Nat → Bool → List CriticalMomentEntry
  | [], _, _ => []
  | p :: rest, i, turn =>
      (if 150 < |plyEvalAfter p - plyEvalBefore p| then [mkCriticalMomentEntry i turn p] else [])
        ++ criticalFrom rest (i + 1) (!turn)

/-! ## Batch iteration over games (analyzer.py lines 300–338)

`analyze_game_sync`'s engine interaction sits inside one `try`/`except`
(lines 139–277); the whole body is abstracted as an oracle that either
returns a result or raises an exception message.  On an exception `e` the
source logs `"Analysis failed for game {game_id}: {e}"` and returns
`None`. -/

/-- Outcome of one game's analysis task: a result, or the terminal error
line logged for that game. -/
inductive TaskOutcome where
  | ok (r : GameAnalysisResult)
  | err (log : String)
deriving DecidableEq, Repr

/-- The exception boundary of `analyze_game_sync` (analyzer.py lines
275–277): a raised exception becomes a logged error tagged with the game
identifier, and no result is returned. -/
def analyze_game_outcome (oracle : String → String → Except String GameAnalysisResult)
    (game_id pgn : String) : TaskOutcome :=
  match oracle game_id pgn with
  | Except.ok r => TaskOutcome.ok r
  | Except.error e =>
      TaskOutcome.err ("Analysis failed for game " ++ game_id ++ ": " ++ e)

/-- One iteration of the `for game_id, pgn in games` loop of
`analyze_games` (analyzer.py lines 332–336): append the result when the
game's analysis succeeded (`if result:`), otherwise keep only the logged
error and continue with the next game. -/
def analyze_games_step (oracle : String → String → Except String GameAnalysisResult)
    (acc : List GameAnalysisResult × List String) (gp : String × String) :
    List GameAnalysisResult × List String :=
  match analyze_game_outcome oracle gp.1 gp.2 with
  | TaskOutcome.ok r => (acc.1 ++ [r], acc.2)
  | TaskOutcome.err log => (acc.1, acc.2 ++ [log])

/-- Embedding of `analyze_games` (analyzer.py lines 316–338): iterate the
`(game_id, pgn)` list in order, starting from empty accumulators.
Returns the collected results and the error log lines. -/
def analyze_games (oracle : String → String → Except String GameAnalysisResult)
    (games : List (String × String)) : List GameAnalysisResult × List String :=
  games.foldl (analyze_games_step oracle) ([], [])

/-! ## Job processing (main.py `_process_job_task`, lines 120–299) -/

/-- Embedding of the `FetchedGame` dataclass (game_fetcher.py lines
13–24).  `pgn` defaults to `""` when the platform reply carries no PGN, so
Python's truthiness test `game.pgn` is emptiness of the string. -/
structure FetchedGame where
  game_id : String
  pgn : String
  white : String
  black : String
  result : String
  opening : Option String
  date : Option String
  time_control : Option String
  platform : String
deriving DecidableEq, Repr

/-- The cache query (main.py lines 151–164): the `GameAnalysis` rows of
this user are abstracted as `prior : gameId → list of stored result
statuses`; the SQL filter `result::text LIKE '%"status": "analyzed"%'`
selects exactly the rows whose stored status field is `"analyzed"`
(`store_game_result` serializes that field verbatim into the JSON text).
Returns the game ids with at least one such row. -/
def cached_analyses (prior : String → List String) (game_ids : List String) : List String :=
  game_ids.filter (fun gid => (prior gid).contains "analyzed")

/-- The needs-analysis partition (main.py lines 166–172): a game is
queued for analysis iff its id is not cached and its PGN is non-empty
(`if game.game_id not in cached_analyses and game.pgn`). -/
def games_to_analyze (prior : String → List String) (games : List FetchedGame) :
    List (String × String) :=
  let cached := cached_analyses prior (games.map (fun g => g.game_id))
  (games.filter (fun g => !cached.contains g.game_id && g.pgn != "")).map
    (fun g => (g.game_id, g.pgn))

/-- A row written by `store_game_result` (main.py lines 179–240),
projected to the fields the claims are about: the game id and the stored
`status` (`"analyzed"` when an analysis result is present, `"fetched"`
otherwise). -/
structure StoredRecord where
  gameId : String
  status : String
deriving DecidableEq, Repr

/-- The terminal outcome of `_process_job_task`: the final `Job` status,
the error payload when failed, and the `GameAnalysis` rows written. -/
structure JobOutcome where
  status : String
  error : Option String
  stored : List StoredRecord
deriving DecidableEq, Repr

/-- Embedding of the control flow of `_process_job_task` (main.py lines
120–285).  Inputs: the fetched games, whether `find_stockfish()` found an
engine, the prior sink rows, and — because `analyze_games_parallel` is
called at line 244 but is not defined anywhere in the source tree — the
stream of per-game results it yields, abstracted as a list in completion
order.  Control flow: no games → job `FAILED` with "No games found"; an
available engine and a non-empty needs-analysis partition → store one
`"analyzed"` row per streamed result whose id is known to `game_lookup`;
otherwise → store every fetched game as a `"fetched"` row; both storing
branches end with the job marked `COMPLETED`. -/
def _process_job_task (games : List FetchedGame) (stockfish_available : Bool)
    (prior : String → List String) (parallel_results : List GameAnalysisResult) :
    JobOutcome :=
  if games.isEmpty then
    { status := "FAILED", error := some "No games found for this user", stored := [] }
  else
    let gta := games_to_analyze prior games
    if stockfish_available && !gta.isEmpty then
      { status := "COMPLETED"
        error := none
        stored := parallel_results.filterMap (fun r =>
          if (games.find? (fun g => g.game_id == r.game_id)).isSome then
            some { gameId := r.game_id, status := "analyzed" }
          else none) }
    else
      { status := "COMPLETED"
        error := none
        stored := games.map (fun g => { gameId := g.game_id, status := "fetched" }) }

/-! ## Batch Scheduler (spec §4.5, §5)

Modelled from the spec: `analyze_games_parallel`, the bounded-concurrency
Batch Scheduler, is invoked from `main.py` line 244 with `max_workers=2`
but its definition is missing from the source tree.  Per spec §4.5/§5 it
is a worker pool of size `W`: a pending task may start only while fewer
than `W` analyzers are running, and a running task may finish at any
time.  The pool is modelled as a labelled transition system over the
multiset of task states. -/

/-- Scheduler state: tasks not yet started, tasks currently running (one
Per-Game Analyzer and engine process each), and finished tasks. -/
structure SchedulerState where
  pending : List String
  running : List String
  finished : List String
deriving DecidableEq, Repr

/-- Modelled from the spec: one scheduler transition — start the next
pending task when a worker slot is free (`running < W`), or retire a
running task when its analysis completes. -/
inductive SchedulerStep (W : Nat) : SchedulerState → SchedulerState → Prop
  | start (s : SchedulerState) (t : String) (rest : List String)
      (hp : s.pending = t :: rest) (hw : s.running.length < W) :
      SchedulerStep W s ⟨rest, t :: s.running, s.finished⟩
  | finish (s : SchedulerState) (t : String) (ht : t ∈ s.running) :
      SchedulerStep W s ⟨s.pending, s.running.erase t, t :: s.finished⟩

/-- Modelled from the spec: the states the scheduler can reach from the
initial state (all tasks pending, no worker busy). -/
inductive SchedulerReachable (W : Nat) (tasks : List String) : SchedulerState → Prop
  | init : SchedulerReachable W tasks ⟨tasks, [], []⟩
  | step {s t : SchedulerState} (h : SchedulerReachable W tasks s)
      (hs : SchedulerStep W s t) : SchedulerReachable W tasks t

/-! ## Helper lemmas -/

lemma round10_zero : round10 0 = 0 := by norm_num [round10, round_eq]

lemma round10_hundred : round10 100 = 100 := by norm_num [round10, round_eq]

lemma round10_mono {x y : ℚ} (h : x ≤ y) : round10 x ≤ round10 y := by
  unfold round10
  have hr : round (x * 10) ≤ round (y * 10) := by
    rw [round_eq, round_eq]
    exact Int.floor_le_floor (by linarith)
  have hc : ((round (x * 10) : ℤ) : ℚ) ≤ ((round (y * 10) : ℤ) : ℚ) := by exact_mod_cast hr
  linarith

lemma calculate_accuracy_eq_spec (losses : List Int) :
    calculate_accuracy losses = accuracy_spec losses := by
  unfold calculate_accuracy accuracy_spec
  by_cases h : losses.isEmpty
  · simp [h]
  · simp only [h, if_false]
    set a : ℚ := 100 * (1 - (losses.sum : ℚ) / (losses.length : ℚ) / 200) with ha
    rcases le_total a 0 with h0 | h0
    · have hr : round10 a ≤ 0 := by
        have := round10_mono h0
        rwa [round10_zero] at this
      rw [min_eq_right (le_trans h0 (by norm_num)), max_eq_left h0, round10_zero,
        min_eq_right (le_trans hr (by norm_num)), max_eq_left hr]
    · rcases le_total a 100 with h1 | h1
      · have hr0 : 0 ≤ round10 a := by
          have := round10_mono h0
          rwa [round10_zero] at this
        have hr1 : round10 a ≤ 100 := by
          have := round10_mono h1
          rwa [round10_hundred] at this
        rw [min_eq_right h1, max_eq_right h0, min_eq_right hr1, max_eq_right hr0]
      · have hr1 : 100 ≤ round10 a := by
          have := round10_mono h1
          rwa [round10_hundred] at this
        rw [min_eq_left h1, max_eq_right (by norm_num : (0:ℚ) ≤ 100),
          min_eq_left hr1, max_eq_right (by norm_num : (0:ℚ) ≤ 100), round10_hundred]

lemma calculate_accuracy_range (losses : List Int) :
    0 ≤ calculate_accuracy losses ∧ calculate_accuracy losses ≤ 100 := by
  unfold calculate_accuracy
  by_cases h : losses.isEmpty
  · simp [h]
  · simp only [h, if_false]
    exact ⟨le_max_left _ _, max_le (by norm_num) (min_le_left _ _)⟩

lemma analyzeMovesAux_eq (plies : List PlyData) :
    ∀ (i : Nat) (turn : Bool) (s : LoopState),
      analyzeMovesAux plies i turn s =
        ⟨s.move_analyses ++ movesFrom plies i turn,
         s.white_losses ++ whiteLossesFrom plies i turn,
         s.black_losses ++ blackLossesFrom plies i turn,
         s.mistakes ++ mistakesFrom plies i turn,
         s.blunders ++ blundersFrom plies i turn,
         s.best_moves ++ bestMovesFrom plies i turn,
         s.critical_moments ++ criticalFrom plies i turn⟩ := by
  induction plies with
  | nil =>
      intro i turn s
      simp [analyzeMovesAux, movesFrom, whiteLossesFrom, blackLossesFrom, mistakesFrom,
        blundersFrom, bestMovesFrom, criticalFrom]
  | cons p rest ih =>
      intro i turn s
      rw [analyzeMovesAux, ih]
      simp [analyzeStep, movesFrom, whiteLossesFrom, blackLossesFrom, mistakesFrom,
        blundersFrom, bestMovesFrom, criticalFrom, List.append_assoc]

lemma analyzeMoves_eq (plies : List PlyData) (turn0 : Bool) :
    analyzeMoves plies turn0 =
      ⟨movesFrom plies 0 turn0, whiteLossesFrom plies 0 turn0, blackLossesFrom plies 0 turn0,
       mistakesFrom plies 0 turn0, blundersFrom plies 0 turn0, bestMovesFrom plies 0 turn0,
       criticalFrom plies 0 turn0⟩ := by
  simpa [initState] using analyzeMovesAux_eq plies 0 turn0 initState

lemma movesFrom_loss (plies : List PlyData) :
    ∀ (i : Nat) (turn : Bool) (ma : MoveAnalysis), ma ∈ movesFrom plies i turn →
      ma.centipawn_loss =
        (if ma.is_white then max 0 (ma.eval_before - ma.eval_after)
         else max 0 (ma.eval_after - ma.eval_before)) ∧
      0 ≤ ma.centipawn_loss := by
  induction plies with
  | nil =>
      intro i turn ma hma
      simp [movesFrom] at hma
  | cons p rest ih =>
      intro i turn ma hma
      rw [movesFrom, List.mem_cons] at hma
      rcases hma with rfl | hma
      · constructor
        · cases turn <;> simp [mkMoveAnalysis, plyLoss]
        · cases turn <;> simp [mkMoveAnalysis, plyLoss]
      · exact ih (i + 1) (!turn) ma hma

lemma from_num_mono {α : Type} (f : α → Nat) (F : List PlyData → Nat → Bool → List α)
    (hnil : ∀ i turn, F [] i turn = [])
    (hcons : ∀ p rest i turn,
      F (p :: rest) i turn = F rest (i + 1) (!turn) ∨
      ∃ x, F (p :: rest) i turn = x :: F rest (i + 1) (!turn) ∧ f x = i / 2 + 1) :
    ∀ (plies : List PlyData) (i : Nat) (turn : Bool),
      (∀ e ∈ F plies i turn, i / 2 + 1 ≤ f e) ∧
      (F plies i turn).Pairwise (fun a b => f a ≤ f b) := by
  intro plies
  induction plies with
  | nil =>
      intro i turn
      rw [hnil]
      constructor
      · intro e he
        cases he
      · exact List.Pairwise.nil
  | cons p rest ih =>
      intro i turn
      have key : i / 2 + 1 ≤ (i + 1) / 2 + 1 := by omega
      rcases hcons p rest i turn with h | ⟨x, hx, hfx⟩
      · rw [h]
        refine ⟨fun e he => le_trans key ((ih (i + 1) (!turn)).1 e he), (ih (i + 1) (!turn)).2⟩
      · rw [hx]
        constructor
        · intro e he
          rcases List.mem_cons.mp he with rfl | he'
          · omega
          · exact le_trans key ((ih (i + 1) (!turn)).1 e he')
        · refine List.pairwise_cons.mpr ⟨?_, (ih (i + 1) (!turn)).2⟩
          intro b hb
          rw [hfx]
          exact le_trans key ((ih (i + 1) (!turn)).1 b hb)

lemma mistakesFrom_mono (plies : List PlyData) (i : Nat) (turn : Bool) :
    (mistakesFrom plies i turn).Pairwise (fun a b => a.move_number ≤ b.move_number) := by
  refine (from_num_mono (fun e => e.move_number) mistakesFrom (fun _ _ => rfl) ?_ plies i turn).2
  intro p rest i turn
  by_cases h : classify_move (plyLoss turn p) = "mistake"
  · exact Or.inr ⟨mkMistakeEntry i turn p, by simp [mistakesFrom, h], rfl⟩
  · exact Or.inl (by simp [mistakesFrom, h])

lemma blundersFrom_mono (plies : List PlyData) (i : Nat) (turn : Bool) :
    (blundersFrom plies i turn).Pairwise (fun a b => a.move_number ≤ b.move_number) := by
  refine (from_num_mono (fun e => e.move_number) blundersFrom (fun _ _ => rfl) ?_ plies i turn).2
  intro p rest i turn
  by_cases h : classify_move (plyLoss turn p) = "blunder"
  · exact Or.inr ⟨mkMistakeEntry i turn p, by simp [blundersFrom, h], rfl⟩
  · exact Or.inl (by simp [blundersFrom, h])

lemma bestMovesFrom_mono (plies : List PlyData) (i : Nat) (turn : Bool) :
    (bestMovesFrom plies i turn).Pairwise (fun a b => a.move_number ≤ b.move_number) := by
  refine (from_num_mono (fun e => e.move_number) bestMovesFrom (fun _ _ => rfl) ?_ plies i turn).2
  intro p rest i turn
  by_cases h : classify_move (plyLoss turn p) = "best"
  · exact Or.inr ⟨mkBestMoveEntry i turn p, by simp [bestMovesFrom, h], rfl⟩
  · exact Or.inl (by simp [bestMovesFrom, h])

lemma criticalFrom_mono (plies : List PlyData) (i : Nat) (turn : Bool) :
    (criticalFrom plies i turn).Pairwise (fun a b => a.move_number ≤ b.move_number) := by
  refine (from_num_mono (fun e => e.move_number) criticalFrom (fun _ _ => rfl) ?_ plies i turn).2
  intro p rest i turn
  by_cases h : 150 < |plyEvalAfter p - plyEvalBefore p|
  · exact Or.inr ⟨mkCriticalMomentEntry i turn p, by simp [criticalFrom, h], rfl⟩
  · exact Or.inl (by simp [criticalFrom, h])

lemma analyze_games_acc (oracle : String → String → Except String GameAnalysisResult)
    (games : List (String × String)) :
    ∀ acc : List GameAnalysisResult × List String,
      games.foldl (analyze_games_step oracle) acc =
        (acc.1 ++ (analyze_games oracle games).1, acc.2 ++ (analyze_games oracle games).2) := by
  induction games with
  | nil =>
      intro acc
      simp [analyze_games]
  | cons gp rest ih =>
      intro acc
      simp only [analyze_games, List.foldl_cons]
      rw [ih, ih]
      cases h : analyze_game_outcome oracle gp.1 gp.2 <;>
        simp [analyze_games_step, h, List.append_assoc]

/-! ## Claim theorems -/

/-- C1: for every ply recorded by the Per-Game Analyzer — over all move
sequences, initial sides to move, and evaluator responses — the recorded
centipawn loss equals `max 0 (evalBefore − evalAfter)` when the mover is
white and `max 0 (evalAfter − evalBefore)` when the mover is black (both
evaluations from white's perspective), and in particular every recorded
loss is non-negative. -/
theorem analyzer_loss_formula (plies : List PlyData) (turn0 : Bool) (ma : MoveAnalysis)
    (hma : ma ∈ (analyzeMoves plies turn0).move_analyses) :
    ma.centipawn_loss =
      (if ma.is_white then max 0 (ma.eval_before - ma.eval_after)
       else max 0 (ma.eval_after - ma.eval_before)) ∧
    0 ≤ ma.centipawn_loss := by
  rw [analyzeMoves_eq] at hma
  exact movesFrom_loss plies 0 turn0 ma hma

/-- Witness for C1: the single-ply game whose evaluations drop from 30 to
10 centipawns records a loss of 20 for white. -/
theorem analyzer_loss_formula_witness :
    (mkMoveAnalysis 0 true
        ⟨"e4", "e2e4", "fen0", none, some (PovScore.cp 30), some (PovScore.cp 10)⟩).centipawn_loss =
      (if (mkMoveAnalysis 0 true
            ⟨"e4", "e2e4", "fen0", none, some (PovScore.cp 30), some (PovScore.cp 10)⟩).is_white
       then max 0 ((mkMoveAnalysis 0 true
            ⟨"e4", "e2e4", "fen0", none, some (PovScore.cp 30), some (PovScore.cp 10)⟩).eval_before -
          (mkMoveAnalysis 0 true
            ⟨"e4", "e2e4", "fen0", none, some (PovScore.cp 30), some (PovScore.cp 10)⟩).eval_after)
       else max 0 ((mkMoveAnalysis 0 true
            ⟨"e4", "e2e4", "fen0", none, some (PovScore.cp 30), some (PovScore.cp 10)⟩).eval_after -
          (mkMoveAnalysis 0 true
            ⟨"e4", "e2e4", "fen0", none, some (PovScore.cp 30), some (PovScore.cp 10)⟩).eval_before)) ∧
    0 ≤ (mkMoveAnalysis 0 true
        ⟨"e4", "e2e4", "fen0", none, some (PovScore.cp 30), some (PovScore.cp 10)⟩).centipawn_loss :=
  analyzer_loss_formula
    [⟨"e4", "e2e4", "fen0", none, some (PovScore.cp 30), some (PovScore.cp 10)⟩] true
    (mkMoveAnalysis 0 true
      ⟨"e4", "e2e4", "fen0", none, some (PovScore.cp 30), some (PovScore.cp 10)⟩)
    (by simp [analyzeMoves_eq, movesFrom])

/-- C2: `classify_move` maps every integer centipawn loss to exactly one
label by ascending thresholds with first match winning (≤10 best, ≤30
excellent, ≤100 good, ≤200 inaccuracy, ≤500 mistake, >500 blunder), with
the stated boundary values. -/
theorem classify_move_thresholds (loss : Int) :
    (loss ≤ 10 → classify_move loss = "best") ∧
    (10 < loss → loss ≤ 30 → classify_move loss = "excellent") ∧
    (30 < loss → loss ≤ 100 → classify_move loss = "good") ∧
    (100 < loss → loss ≤ 200 → classify_move loss = "inaccuracy") ∧
    (200 < loss → loss ≤ 500 → classify_move loss = "mistake") ∧
    (500 < loss → classify_move loss = "blunder") ∧
    (classify_move 10 = "best" ∧ classify_move 11 = "excellent" ∧
     classify_move 30 = "excellent" ∧ classify_move 31 = "good" ∧
     classify_move 100 = "good" ∧ classify_move 101 = "inaccuracy" ∧
     classify_move 200 = "inaccuracy" ∧ classify_move 201 = "mistake" ∧
     classify_move 500 = "mistake" ∧ classify_move 501 = "blunder") := by
  unfold classify_move
  refine ⟨?_, ?_, ?_, ?_, ?_, ?_, by norm_num⟩ <;> intros <;> (repeat rw [if_neg (by omega)]) <;>
    first
      | rfl
      | rw [if_pos (by omega)]

/-- Witness for C2: a loss of 11 centipawns is classified excellent. -/
theorem classify_move_thresholds_witness :
    classify_move 11 = "excellent" :=
  (classify_move_thresholds 11).2.1 (by norm_num) (by norm_num)

/-- C3: `calculate_accuracy` returns 100 on empty input, otherwise the
clamp of `100·(1 − mean/200)` to `[0, 100]` rounded to one decimal place;
the stated sample values hold and every result lies in `[0, 100]`. -/
theorem accuracy_aggregator_contract :
    calculate_accuracy [] = 100 ∧ calculate_accuracy [0, 0] = 100 ∧
    calculate_accuracy [100] = 50 ∧ calculate_accuracy [200] = 0 ∧
    calculate_accuracy [400] = 0 ∧
    ∀ losses : List Int,
      0 ≤ calculate_accuracy losses ∧ calculate_accuracy losses ≤ 100 ∧
      calculate_accuracy losses = accuracy_spec losses := by
  refine ⟨by norm_num [calculate_accuracy],
    by norm_num [calculate_accuracy, round10, round_eq],
    by norm_num [calculate_accuracy, round10, round_eq],
    by norm_num [calculate_accuracy, round10, round_eq],
    by norm_num [calculate_accuracy, round10, round_eq], ?_⟩
  intro losses
  exact ⟨(calculate_accuracy_range losses).1, (calculate_accuracy_range losses).2,
    calculate_accuracy_eq_spec losses⟩

/-- C4: in every assembled `GameAnalysisResult` the four capped lists
hold at most 10 entries, each equals the first 10 qualifying moves in ply
order (`take 10` of the full in-order qualifying list, not a
most-severe selection), and move numbers are monotonically
non-decreasing along each list. -/
theorem capped_lists_invariant (plies : List PlyData) (turn0 : Bool)
    (gid w b res : String) (op : Option String) :
    ((assembleResult gid w b res op plies turn0).mistakes.length ≤ 10 ∧
     (assembleResult gid w b res op plies turn0).blunders.length ≤ 10 ∧
     (assembleResult gid w b res op plies turn0).best_moves.length ≤ 10 ∧
     (assembleResult gid w b res op plies turn0).critical_moments.length ≤ 10) ∧
    ((assembleResult gid w b res op plies turn0).mistakes =
        (mistakesFrom plies 0 turn0).take 10 ∧
     (assembleResult gid w b res op plies turn0).blunders =
        (blundersFrom plies 0 turn0).take 10 ∧
     (assembleResult gid w b res op plies turn0).best_moves =
        (bestMovesFrom plies 0 turn0).take 10 ∧
     (assembleResult gid w b res op plies turn0).critical_moments =
        (criticalFrom plies 0 turn0).take 10) ∧
    ((assembleResult gid w b res op plies turn0).mistakes.Pairwise
        (fun a b => a.move_number ≤ b.move_number) ∧
     (assembleResult gid w b res op plies turn0).blunders.Pairwise
        (fun a b => a.move_number ≤ b.move_number) ∧
     (assembleResult gid w b res op plies turn0).best_moves.Pairwise
        (fun a b => a.move_number ≤ b.move_number) ∧
     (assembleResult gid w b res op plies turn0).critical_moments.Pairwise
        (fun a b => a.move_number ≤ b.move_number)) := by
  have hs := analyzeMoves_eq plies turn0
  refine ⟨⟨?_, ?_, ?_, ?_⟩, ⟨?_, ?_, ?_, ?_⟩, ⟨?_, ?_, ?_, ?_⟩⟩ <;>
    simp only [assembleResult, hs]
  · exact List.length_take_le 10 _
  · exact List.length_take_le 10 _
  · exact List.length_take_le 10 _
  · exact List.length_take_le 10 _
  · exact (mistakesFrom_mono plies 0 turn0).sublist (List.take_sublist 10 _)
  · exact (blundersFrom_mono plies 0 turn0).sublist (List.take_sublist 10 _)
  · exact (bestMovesFrom_mono plies 0 turn0).sublist (List.take_sublist 10 _)
  · exact (criticalFrom_mono plies 0 turn0).sublist (List.take_sublist 10 _)

/-- C5: `_get_score` folds a forced-mate distance into the centipawn
scalar as `10000 − 10·pliesToMate` when the mate favors white and
`−10000 + 10·pliesToMate` when it favors black. -/
theorem mate_score_folding (n : Int) :
    (0 < n → _get_score (some (PovScore.mate n)) = 10000 - 10 * n) ∧
    (n < 0 → _get_score (some (PovScore.mate n)) = -10000 + 10 * (-n)) := by
  constructor <;> intro h <;> simp only [_get_score] <;> split <;> omega

/-- Witness for C5: mate in 3 for white folds to 9970 and mate in 2 for
black folds to −9980. -/
theorem mate_score_folding_witness :
    _get_score (some (PovScore.mate 3)) = 10000 - 10 * 3 ∧
    _get_score (some (PovScore.mate (-2))) = -10000 + 10 * 2 :=
  ⟨(mate_score_folding 3).1 (by norm_num),
   (mate_score_folding (-2)).2 (by norm_num)⟩

/-- C6: every state the Batch Scheduler can reach — for any task list and
any worker bound `W` — has at most `W` analyzer instances (hence engine
processes) running concurrently. -/
theorem scheduler_bounded_concurrency (W : Nat) (tasks : List String) (s : SchedulerState)
    (h : SchedulerReachable W tasks s) : s.running.length ≤ W := by
  induction h with
  | init => simp
  | @step s t h hs ih =>
      cases hs with
      | start t rest hp hw => simpa using hw
      | finish t ht =>
          refine le_trans ?_ ih
          simpa using (List.erase_sublist t s.running).length_le

/-- Witness for C6: after starting the first of three tasks with two
workers, one analyzer is running, within the bound. -/
theorem scheduler_bounded_concurrency_witness :
    (SchedulerState.mk ["t2", "t3"] ["t1"] []).running.length ≤ 2 :=
  scheduler_bounded_concurrency 2 ["t1", "t2", "t3"] _
    (SchedulerReachable.step SchedulerReachable.init
      (SchedulerStep.start ⟨["t1", "t2", "t3"], [], []⟩ "t1" ["t2", "t3"] rfl (by decide)))

/-- C7 counterexample: with one fetched game and no engine available, the
job finishes `COMPLETED`, not `FAILED` as the claim requires. -/
theorem engine_unavailable_not_failed :
    (_process_job_task [⟨"g1", "1. e4 e5", "alice", "bob", "1-0", none, none, none, "lichess"⟩]
        false (fun _ => []) []).status = "COMPLETED" ∧
    (_process_job_task [⟨"g1", "1. e4 e5", "alice", "bob", "1-0", none, none, none, "lichess"⟩]
        false (fun _ => []) []).status ≠ "FAILED" := by
  constructor
  · rfl
  · decide

/-- C7 amended: when no engine is available at batch start, no per-game
analysis is attempted — every fetched game is stored with status
`fetched` — but the condition is not fatal: the job is reported
`COMPLETED`. -/
theorem engine_unavailable_degrades_to_fetched (games : List FetchedGame)
    (prior : String → List String) (parallel_results : List GameAnalysisResult)
    (h : games ≠ []) :
    (_process_job_task games false prior parallel_results).status = "COMPLETED" ∧
    (_process_job_task games false prior parallel_results).stored =
      games.map (fun g => { gameId := g.game_id, status := "fetched" }) := by
  have hni : games.isEmpty = false := by
    cases games with
    | nil => exact absurd rfl h
    | cons a l => rfl
  unfold _process_job_task
  rw [hni]
  simp

/-- Witness for the amended C7 at a concrete one-game batch. -/
theorem engine_unavailable_degrades_to_fetched_witness :
    (_process_job_task [⟨"g2", "1. d4 d5", "a", "b", "0-1", none, none, none, "chesscom"⟩]
        false (fun _ => []) []).status = "COMPLETED" ∧
    (_process_job_task [⟨"g2", "1. d4 d5", "a", "b", "0-1", none, none, none, "chesscom"⟩]
        false (fun _ => []) []).stored =
      ([⟨"g2", "1. d4 d5", "a", "b", "0-1", none, none, none, "chesscom"⟩] :
          List FetchedGame).map (fun g => { gameId := g.game_id, status := "fetched" }) :=
  engine_unavailable_degrades_to_fetched
    [⟨"g2", "1. d4 d5", "a", "b", "0-1", none, none, none, "chesscom"⟩]
    (fun _ => []) [] (by decide)

/-- C8: an evaluator failure mid-game yields no result for that game and
a terminal error log tagged with the game identifier, while every sibling
game's results are exactly those it would have produced anyway — the
batch continues over the remaining games. -/
theorem evaluator_failure_isolation
    (oracle : String → String → Except String GameAnalysisResult)
    (pre post : List (String × String)) (gid pgn e : String)
    (h : oracle gid pgn = Except.error e) :
    (analyze_games oracle (pre ++ (gid, pgn) :: post)).1 =
      (analyze_games oracle pre).1 ++ (analyze_games oracle post).1 ∧
    ("Analysis failed for game " ++ gid ++ ": " ++ e) ∈
      (analyze_games oracle (pre ++ (gid, pgn) :: post)).2 ∧
    analyze_game_outcome oracle gid pgn =
      TaskOutcome.err ("Analysis failed for game " ++ gid ++ ": " ++ e) := by
  have hout : analyze_game_outcome oracle gid pgn =
      TaskOutcome.err ("Analysis failed for game " ++ gid ++ ": " ++ e) := by
    simp [analyze_game_outcome, h]
  have hfull : analyze_games oracle (pre ++ (gid, pgn) :: post) =
      ((analyze_games oracle pre).1 ++ (analyze_games oracle post).1,
       ((analyze_games oracle pre).2 ++ ["Analysis failed for game " ++ gid ++ ": " ++ e]) ++
         (analyze_games oracle post).2) := by
    rw [analyze_games, List.foldl_append, List.foldl_cons]
    have hpre : List.foldl (analyze_games_step oracle) ([], []) pre =
        analyze_games oracle pre := rfl
    rw [hpre]
    have hstep : analyze_games_step oracle (analyze_games oracle pre) (gid, pgn) =
        ((analyze_games oracle pre).1,
         (analyze_games oracle pre).2 ++ ["Analysis failed for game " ++ gid ++ ": " ++ e]) := by
      simp [analyze_games_step, hout]
    rw [hstep, analyze_games_acc oracle post]
  refine ⟨?_, ?_, hout⟩
  · rw [hfull]
  · rw [hfull]
    simp

/-- Witness for C8: a batch of one game whose oracle raises "engine
crashed" yields no results and the tagged error line. -/
theorem evaluator_failure_isolation_witness :
    (analyze_games (fun _ _ => Except.error "engine crashed") [("g1", "1. e4")]).1 =
      (analyze_games (fun _ _ => Except.error "engine crashed") []).1 ++
        (analyze_games (fun _ _ => Except.error "engine crashed") []).1 ∧
    ("Analysis failed for game " ++ "g1" ++ ": " ++ "engine crashed") ∈
      (analyze_games (fun _ _ => Except.error "engine crashed") [("g1", "1. e4")]).2 ∧
    analyze_game_outcome (fun _ _ => Except.error "engine crashed") "g1" "1. e4" =
      TaskOutcome.err ("Analysis failed for game " ++ "g1" ++ ": " ++ "engine crashed") := by
  have h := evaluator_failure_isolation (fun _ _ => Except.error "engine crashed") [] []
    "g1" "1. e4" "engine crashed" rfl
  simpa using h

/-- C9 counterexample: a game whose only prior sink row has status
`fetched` but whose PGN is empty is not counted as cached, yet it is also
not placed in the needs-analysis partition — refuting the claim that every
fetched-prior game is retried. -/
theorem fetched_prior_not_always_retried :
    cached_analyses (fun _ => ["fetched"]) ["g1"] = [] ∧
    games_to_analyze (fun _ => ["fetched"])
      [⟨"g1", "", "a", "b", "1-0", none, none, none, "lichess"⟩] = [] := by
  constructor
  · rfl
  · rfl

/-- C9 amended: the Cache Gate counts a game as already analyzed only if
a prior sink row for it has status `analyzed`; a game with no
`analyzed`-status prior row is never counted cached and — provided its
PGN is non-empty — is placed in the needs-analysis partition and
retried. -/
theorem cache_gate_analyzed_only (prior : String → List String) (games : List FetchedGame)
    (g : FetchedGame) (hg : g ∈ games) (hnot : "analyzed" ∉ prior g.game_id) :
    g.game_id ∉ cached_analyses prior (games.map (fun x => x.game_id)) ∧
    (g.pgn ≠ "" → (g.game_id, g.pgn) ∈ games_to_analyze prior games) ∧
    ∀ gid ∈ cached_analyses prior (games.map (fun x => x.game_id)), "analyzed" ∈ prior gid := by
  refine ⟨?_, ?_, ?_⟩
  · intro hmem
    rw [cached_analyses, List.mem_filter] at hmem
    exact hnot (by simpa using hmem.2)
  · intro hpgn
    rw [games_to_analyze]
    refine List.mem_map.mpr ⟨g, List.mem_filter.mpr ⟨hg, ?_⟩, rfl⟩
    have hmem : g.game_id ∉ cached_analyses prior (games.map (fun x => x.game_id)) := by
      intro hmem
      rw [cached_analyses, List.mem_filter] at hmem
      exact hnot (by simpa using hmem.2)
    simp only [List.contains, List.elem_eq_mem, Bool.and_eq_true, Bool.not_eq_eq_eq_not,
      Bool.not_true, decide_eq_false_iff_not, bne_iff_ne]
    exact ⟨hmem, hpgn⟩
  · intro gid hgid
    rw [cached_analyses, List.mem_filter] at hgid
    simpa using hgid.2

/-- Witness for the amended C9: a fetched-prior game with a non-empty PGN
is not cached and lands in the needs-analysis partition. -/
theorem cache_gate_analyzed_only_witness :
    "g3" ∉ cached_analyses (fun _ => ["fetched"])
      (([⟨"g3", "1. c4", "a", "b", "1-0", none, none, none, "lichess"⟩] :
        List FetchedGame).map (fun x => x.game_id)) ∧
    (("g3" : String) ≠ "" → ("g3", "1. c4") ∈ games_to_analyze (fun _ => ["fetched"])
      [⟨"g3", "1. c4", "a", "b", "1-0", none, none, none, "lichess"⟩]) := by
  have h := cache_gate_analyzed_only (fun _ => ["fetched"])
    [⟨"g3", "1. c4", "a", "b", "1-0", none, none, none, "lichess"⟩]
    ⟨"g3", "1. c4", "a", "b", "1-0", none, none, none, "lichess"⟩
    (List.mem_singleton.mpr rfl) (by decide)
  exact ⟨h.1, by simpa using h.2.1⟩

/-- C10: when an engine reply carries no score at all, score extraction
returns 0 centipawns — the same value as an explicit dead-even
evaluation, so the two are indistinguishable downstream. -/
theorem missing_score_defaults_zero :
    _get_score none = 0 ∧ _get_score none = _get_score (some (PovScore.cp 0)) :=
  ⟨rfl, rfl⟩

end ChessGenie
